import Mathlib

/-!
Shallow embedding of the argument-specification builder of `src/build/arg/mod.rs`
(the `Arg` struct, its chained configuration methods, the `_build` normalization
pass and the `_debug_asserts` invariant pass), together with theorems settling
the frozen claims about it.

Rust-side conventions used throughout the embedding:
* ownership-transferring builder methods become pure functions `Arg → Arg`;
* methods that can `panic!` return `Option Arg` (`none` models the panic);
* `u64`/`usize` become `Nat` (no overflow is reachable at the modelled sites);
* `&str` / `OsStr` / `OsString` all become `String`;
* validator closures become `String → Except String Unit` values.
-/

namespace Clap

/-- Settings catalogue (`ArgSettings`, declared in `src/build/arg/settings.rs`
which is not part of the corpus; the constructor list is exactly the set of
variants referenced by `src/build/arg/mod.rs`). -/
inductive ArgSetting where
  | Required
  | MultipleOccurrences
  | MultipleValues
  | EmptyValues
  | AllowEmptyValues
  | Global
  | Hidden
  | TakesValue
  | UseValueDelimiter
  | NextLineHelp
  | RequiredUnlessAll
  | RequireDelimiter
  | ValueDelimiterNotSet
  | HidePossibleValues
  | AllowHyphenValues
  | RequireEquals
  | Last
  | HideDefaultValue
  | IgnoreCase
  | HideEnvValues
  | HiddenShortHelp
  | HiddenLongHelp
  deriving DecidableEq, Repr

/-- Modelled from the spec: the boolean settings collection (`ArgFlags`, from the
missing `settings.rs`) is "a fixed catalogue of ~30 independent boolean
toggles"; it is represented as the finite set of toggles currently on, `set`
turns a toggle on, `unset` turns it off, `is_set` reads it, and a freshly
constructed specification has no toggle on. -/
structure ArgFlags where
  flags : List ArgSetting
  deriving DecidableEq, Repr

/-- The flag collection of a freshly constructed argument (`ArgFlags::default()`). -/
def ArgFlags.empty : ArgFlags := ⟨[]⟩

/-- `ArgFlags::is_set`. -/
def ArgFlags.is_set (f : ArgFlags) (s : ArgSetting) : Bool := decide (s ∈ f.flags)

/-- `ArgFlags::set`: turn a toggle on (a set-insert). -/
def ArgFlags.set (f : ArgFlags) (s : ArgSetting) : ArgFlags :=
  if s ∈ f.flags then f else ⟨f.flags ++ [s]⟩

/-- `ArgFlags::unset`: turn a toggle off (a set-remove). -/
def ArgFlags.unset (f : ArgFlags) (s : ArgSetting) : ArgFlags :=
  ⟨f.flags.filter (fun x => decide (x ≠ s))⟩

/-- Modelled from the spec: `util::Id` (not in the corpus) is "a stable identity
derived deterministically from its declared name (not its display form)"; the
identity is represented by the declared name it is derived from, and
`Id.ofName` is the deterministic derivation (`Id::from`). -/
structure Id where
  key : String
  deriving DecidableEq, Repr

/-- `Id::from(name)`: the deterministic identity derivation. -/
def Id.ofName (s : String) : Id := ⟨s⟩

/-- Modelled from the spec: `util::VecMap` (not in the corpus) backs "an ordered
list of cosmetic per-value display names"; it is a finite map keyed by `Nat`
where inserting at a fresh key appends an entry and inserting at an occupied
key replaces that entry. -/
structure VecMap (α : Type) where
  entries : List (Nat × α)
  deriving DecidableEq, Repr

/-- `VecMap::len`: number of entries. -/
def VecMap.len {α : Type} (m : VecMap α) : Nat := m.entries.length

/-- `VecMap::insert`. -/
def VecMap.insert {α : Type} (m : VecMap α) (k : Nat) (v : α) : VecMap α :=
  if m.entries.any (fun p => decide (p.1 = k)) then
    ⟨m.entries.map (fun p => if p.1 = k then (k, v) else p)⟩
  else
    ⟨m.entries ++ [(k, v)]⟩

/-- Sequential insertion at consecutive keys starting from `i` (the
`let mut i = self.val_names.len(); for s in names { ...insert(i, s); i += 1 }`
loop of `Arg::value_names`). -/
def VecMap.insert_seq {α : Type} (m : VecMap α) (i : Nat) : List α → VecMap α
  | [] => m
  | v :: rest => (m.insert i v).insert_seq (i + 1) rest

/-- The `Arg` record (`src/build/arg/mod.rs`).  Field defaults are the values
produced by the derived `Default` implementation, which `Arg::new` starts
from. -/
structure Arg where
  id : Id
  name : String
  about : Option String := none
  long_about : Option String := none
  blacklist : List Id := []
  settings : ArgFlags := ArgFlags.empty
  overrides : List Id := []
  groups : List Id := []
  requires : List (Option String × Id) := []
  r_ifs : List (Id × String) := []
  r_unless : List Id := []
  short : Option Char := none
  long : Option String := none
  aliases : List (String × Bool) := []
  short_aliases : List (Char × Bool) := []
  disp_ord : Nat := 0
  unified_ord : Nat := 0
  possible_vals : List String := []
  val_names : VecMap String := ⟨[]⟩
  num_vals : Option Nat := none
  max_vals : Option Nat := none
  min_vals : Option Nat := none
  validator : Option (String → Except String Unit) := none
  validator_os : Option (String → Except String Unit) := none
  val_delim : Option Char := none
  default_vals : List String := []
  default_vals_ifs : VecMap (Id × Option String × String) := ⟨[]⟩
  default_missing_vals : List String := []
  env : Option (String × Option String) := none
  terminator : Option String := none
  index : Option Nat := none
  help_heading : Option String := none
  global : Bool := false
  exclusive : Bool := false

/-- `Arg::new`: identity-only constructor; the identity is derived from the
declared name, the display-ordering weights start at the fixed default 999,
everything else is `Default::default()`. -/
def Arg.new (n : String) : Arg :=
  { id := Id.ofName n, name := n, disp_ord := 999, unified_ord := 999 }

/-- `Arg::set_mut`. -/
def Arg.set_mut (a : Arg) (s : ArgSetting) : Arg :=
  { a with settings := a.settings.set s }

/-- `Arg::unset_mut`. -/
def Arg.unset_mut (a : Arg) (s : ArgSetting) : Arg :=
  { a with settings := a.settings.unset s }

/-- `Arg::setting`. -/
def Arg.setting (a : Arg) (s : ArgSetting) : Arg := a.set_mut s

/-- `Arg::settings` (the method; the record field keeps the Rust name). -/
def Arg.settings' (a : Arg) (ss : List ArgSetting) : Arg :=
  ss.foldl (fun acc s => { acc with settings := acc.settings.set s }) a

/-- `Arg::unset_setting`. -/
def Arg.unset_setting (a : Arg) (s : ArgSetting) : Arg := a.unset_mut s

/-- `Arg::is_set`. -/
def Arg.is_set (a : Arg) (s : ArgSetting) : Bool := a.settings.is_set s

/-- `Arg::short` (the method): panics (`none`) when the character is the
reserved separator `'-'`, otherwise records the short token. -/
def Arg.short' (a : Arg) (s : Char) : Option Arg :=
  if s = '-' then none else some { a with short := some s }

/-- `Arg::long` (the method): strips leading `'-'` characters and records the
long token. -/
def Arg.long' (a : Arg) (l : String) : Arg :=
  { a with long := some (l.dropWhile (fun c => c = '-')) }

/-- `Arg::alias`. -/
def Arg.alias (a : Arg) (n : String) : Arg :=
  { a with aliases := a.aliases ++ [(n, false)] }

/-- `Arg::aliases` (the method). -/
def Arg.aliases' (a : Arg) (ns : List String) : Arg :=
  { a with aliases := a.aliases ++ ns.map (fun x => (x, false)) }

/-- `Arg::short_alias`: panics (`none`) on `'-'`. -/
def Arg.short_alias (a : Arg) (n : Char) : Option Arg :=
  if n = '-' then none else some { a with short_aliases := a.short_aliases ++ [(n, false)] }

/-- `Arg::short_aliases` (the method): the source loop pushes aliases one by
one and panics (`none`) as soon as it meets `'-'`. -/
def Arg.short_aliases' (a : Arg) : List Char → Option Arg
  | [] => some a
  | c :: rest =>
    if c = '-' then none
    else Arg.short_aliases' { a with short_aliases := a.short_aliases ++ [(c, false)] } rest

/-- `Arg::visible_alias`. -/
def Arg.visible_alias (a : Arg) (n : String) : Arg :=
  { a with aliases := a.aliases ++ [(n, true)] }

/-- `Arg::visible_short_alias`: panics (`none`) on `'-'`. -/
def Arg.visible_short_alias (a : Arg) (n : Char) : Option Arg :=
  if n = '-' then none else some { a with short_aliases := a.short_aliases ++ [(n, true)] }

/-- `Arg::visible_aliases`. -/
def Arg.visible_aliases (a : Arg) (ns : List String) : Arg :=
  { a with aliases := a.aliases ++ ns.map (fun x => (x, true)) }

/-- `Arg::visible_short_aliases`: pushes visible aliases one by one, panicking
(`none`) as soon as it meets `'-'`. -/
def Arg.visible_short_aliases (a : Arg) : List Char → Option Arg
  | [] => some a
  | c :: rest =>
    if c = '-' then none
    else Arg.visible_short_aliases { a with short_aliases := a.short_aliases ++ [(c, true)] } rest

/-- `Arg::about` (the method). -/
def Arg.about' (a : Arg) (h : String) : Arg := { a with about := some h }

/-- `Arg::long_about` (the method). -/
def Arg.long_about' (a : Arg) (h : String) : Arg := { a with long_about := some h }

/-- `Arg::required_unless`. -/
def Arg.required_unless (a : Arg) (i : Id) : Arg :=
  { a with r_unless := a.r_unless ++ [i] }

/-- `Arg::required_unless_all`. -/
def Arg.required_unless_all (a : Arg) (ns : List String) : Arg :=
  Arg.setting { a with r_unless := a.r_unless ++ ns.map Id.ofName } ArgSetting.RequiredUnlessAll

/-- `Arg::required_unless_one`. -/
def Arg.required_unless_one (a : Arg) (ns : List String) : Arg :=
  { a with r_unless := a.r_unless ++ ns.map Id.ofName }

/-- `Arg::conflicts_with`: records the conflict, performing no check. -/
def Arg.conflicts_with (a : Arg) (i : Id) : Arg :=
  { a with blacklist := a.blacklist ++ [i] }

/-- `Arg::conflicts_with_all`. -/
def Arg.conflicts_with_all (a : Arg) (ns : List String) : Arg :=
  { a with blacklist := a.blacklist ++ ns.map Id.ofName }

/-- `Arg::exclusive` (the method). -/
def Arg.exclusive' (a : Arg) (e : Bool) : Arg := { a with exclusive := e }

/-- `Arg::overrides_with`. -/
def Arg.overrides_with (a : Arg) (i : Id) : Arg :=
  { a with overrides := a.overrides ++ [i] }

/-- `Arg::overrides_with_all`. -/
def Arg.overrides_with_all (a : Arg) (is_ : List Id) : Arg :=
  { a with overrides := a.overrides ++ is_ }

/-- `Arg::requires` (the method). -/
def Arg.requires' (a : Arg) (i : Id) : Arg :=
  { a with requires := a.requires ++ [(none, i)] }

/-- `Arg::requires_if`. -/
def Arg.requires_if (a : Arg) (v : String) (i : Id) : Arg :=
  { a with requires := a.requires ++ [(some v, i)] }

/-- `Arg::requires_ifs`. -/
def Arg.requires_ifs (a : Arg) (ifs : List (String × Id)) : Arg :=
  { a with requires := a.requires ++ ifs.map (fun p => (some p.1, p.2)) }

/-- `Arg::required_if`. -/
def Arg.required_if (a : Arg) (i : Id) (v : String) : Arg :=
  { a with r_ifs := a.r_ifs ++ [(i, v)] }

/-- `Arg::required_ifs`. -/
def Arg.required_ifs (a : Arg) (ifs : List (Id × String)) : Arg :=
  { a with r_ifs := a.r_ifs ++ ifs }

/-- `Arg::requires_all`. -/
def Arg.requires_all (a : Arg) (is_ : List Id) : Arg :=
  { a with requires := a.requires ++ is_.map (fun i => (none, i)) }

/-- `Arg::index` (the method). -/
def Arg.index' (a : Arg) (idx : Nat) : Arg := { a with index := some idx }

/-- `Arg::value_terminator`. -/
def Arg.value_terminator (a : Arg) (t : String) : Arg :=
  Arg.set_mut { a with terminator := some t } ArgSetting.TakesValue

/-- `Arg::possible_values`. -/
def Arg.possible_values (a : Arg) (ns : List String) : Arg :=
  { a.set_mut ArgSetting.TakesValue with
      possible_vals := a.possible_vals ++ ns }

/-- `Arg::possible_value`. -/
def Arg.possible_value (a : Arg) (n : String) : Arg :=
  { a.set_mut ArgSetting.TakesValue with
      possible_vals := a.possible_vals ++ [n] }

/-- `Arg::group`. -/
def Arg.group (a : Arg) (i : Id) : Arg := { a with groups := a.groups ++ [i] }

/-- `Arg::groups` (the method). -/
def Arg.groups' (a : Arg) (is_ : List Id) : Arg :=
  { a with groups := a.groups ++ is_ }

/-- `Arg::number_of_values`: implies takes-a-value and stores the exact count. -/
def Arg.number_of_values (a : Arg) (qty : Nat) : Arg :=
  { a.set_mut ArgSetting.TakesValue with num_vals := some qty }

/-- `Arg::validator` (the method): stores the callback; it touches no setting. -/
def Arg.validator' (a : Arg) (f : String → Except String Unit) : Arg :=
  { a with validator := some f }

/-- `Arg::validator_os` (the method): stores the callback; it touches no setting. -/
def Arg.validator_os' (a : Arg) (f : String → Except String Unit) : Arg :=
  { a with validator_os := some f }

/-- `Arg::max_values`: implies takes-a-value and multiple-values. -/
def Arg.max_values (a : Arg) (qty : Nat) : Arg :=
  { (a.set_mut ArgSetting.TakesValue).set_mut ArgSetting.MultipleValues with
      max_vals := some qty }

/-- `Arg::min_values`: stores the bound, then implies takes-a-value. -/
def Arg.min_values (a : Arg) (qty : Nat) : Arg :=
  Arg.setting { a with min_vals := some qty } ArgSetting.TakesValue

/-- `Arg::value_delimiter`: clears the delimiter-not-set marker, implies
takes-a-value and use-a-delimiter, and stores the first character of the given
string (panicking — `none` — when the string is empty). -/
def Arg.value_delimiter (a : Arg) (d : String) : Option Arg :=
  match d.toList with
  | [] => none
  | c :: _ =>
    some { ((a.unset_mut ArgSetting.ValueDelimiterNotSet).set_mut
              ArgSetting.TakesValue).set_mut ArgSetting.UseValueDelimiter with
             val_delim := some c }

/-- `Arg::value_names`: implies takes-a-value; when the delimiter-not-set
marker is on it is cleared and use-a-delimiter is implied; then the names are
inserted at consecutive fresh keys. -/
def Arg.value_names (a : Arg) (names : List String) : Arg :=
  let a1 := a.set_mut ArgSetting.TakesValue
  let a2 :=
    if a1.is_set ArgSetting.ValueDelimiterNotSet then
      (a1.unset_mut ArgSetting.ValueDelimiterNotSet).set_mut ArgSetting.UseValueDelimiter
    else a1
  { a2 with val_names := a2.val_names.insert_seq a2.val_names.len names }

/-- `Arg::value_name`: implies takes-a-value and appends one display name. -/
def Arg.value_name (a : Arg) (n : String) : Arg :=
  let a1 := a.set_mut ArgSetting.TakesValue
  { a1 with val_names := a1.val_names.insert a1.val_names.len n }

/-- `Arg::default_values_os`: implies takes-a-value and replaces the default
value list. -/
def Arg.default_values_os (a : Arg) (vals : List String) : Arg :=
  { a.set_mut ArgSetting.TakesValue with default_vals := vals }

/-- `Arg::default_value`: delegates to `Arg::default_values_os`. -/
def Arg.default_value (a : Arg) (v : String) : Arg := a.default_values_os [v]

/-- `Arg::default_missing_values_os`. -/
def Arg.default_missing_values_os (a : Arg) (vals : List String) : Arg :=
  { a.set_mut ArgSetting.TakesValue with default_missing_vals := vals }

/-- `Arg::default_value_if_os`: implies takes-a-value and appends one
conditional default at the next key. -/
def Arg.default_value_if_os (a : Arg) (i : Id) (v : Option String) (d : String) : Arg :=
  let a1 := a.set_mut ArgSetting.TakesValue
  { a1 with default_vals_ifs := a1.default_vals_ifs.insert a1.default_vals_ifs.len (i, v, d) }

/-- `Arg::env_os`: captures the ambient environment value (passed here
explicitly, since the embedding is pure) and implies takes-a-value only when
multiple-occurrences is not already set. -/
def Arg.env_os (a : Arg) (n : String) (ambient : Option String) : Arg :=
  let a1 := if a.is_set ArgSetting.MultipleOccurrences then a
            else a.set_mut ArgSetting.TakesValue
  { a1 with env := some (n, ambient) }

/-- `Arg::display_order`. -/
def Arg.display_order (a : Arg) (ord : Nat) : Arg := { a with disp_ord := ord }

/-- `Arg::last`. -/
def Arg.last (a : Arg) (l : Bool) : Arg :=
  if l then a.setting ArgSetting.Last else a.unset_setting ArgSetting.Last

/-- `Arg::required` (the boolean setter). -/
def Arg.required (a : Arg) (r : Bool) : Arg :=
  if r then a.setting ArgSetting.Required else a.unset_setting ArgSetting.Required

/-- `Arg::takes_value`. -/
def Arg.takes_value (a : Arg) (tv : Bool) : Arg :=
  if tv then a.setting ArgSetting.TakesValue else a.unset_setting ArgSetting.TakesValue

/-- `Arg::allow_hyphen_values`. -/
def Arg.allow_hyphen_values (a : Arg) (h : Bool) : Arg :=
  if h then a.setting ArgSetting.AllowHyphenValues
  else a.unset_setting ArgSetting.AllowHyphenValues

/-- `Arg::require_equals`: at `true` it first clears allow-empty-values, then
sets require-equals. -/
def Arg.require_equals (a : Arg) (r : Bool) : Arg :=
  if r then (a.unset_mut ArgSetting.AllowEmptyValues).setting ArgSetting.RequireEquals
  else a.unset_setting ArgSetting.RequireEquals

/-- `Arg::global` (the method). -/
def Arg.global' (a : Arg) (g : Bool) : Arg := { a with global := g }

/-- `Arg::require_delimiter`: at `true` it sets use-a-delimiter, clears the
delimiter-not-set marker and sets require-a-delimiter; at `false` it clears
use-a-delimiter and require-a-delimiter. -/
def Arg.require_delimiter (a : Arg) (d : Bool) : Arg :=
  if d then
    (((a.set_mut ArgSetting.UseValueDelimiter).unset_mut
        ArgSetting.ValueDelimiterNotSet).set_mut
        ArgSetting.UseValueDelimiter).setting ArgSetting.RequireDelimiter
  else
    ((a.unset_mut ArgSetting.UseValueDelimiter).unset_mut
        ArgSetting.UseValueDelimiter).unset_setting ArgSetting.RequireDelimiter

/-- `Arg::hide_possible_values`. -/
def Arg.hide_possible_values (a : Arg) (h : Bool) : Arg :=
  if h then a.setting ArgSetting.HidePossibleValues
  else a.unset_setting ArgSetting.HidePossibleValues

/-- `Arg::hide_default_value`. -/
def Arg.hide_default_value (a : Arg) (h : Bool) : Arg :=
  if h then a.setting ArgSetting.HideDefaultValue
  else a.unset_setting ArgSetting.HideDefaultValue

/-- `Arg::hidden`. -/
def Arg.hidden (a : Arg) (h : Bool) : Arg :=
  if h then a.setting ArgSetting.Hidden else a.unset_setting ArgSetting.Hidden

/-- `Arg::case_insensitive`. -/
def Arg.case_insensitive (a : Arg) (ci : Bool) : Arg :=
  if ci then a.setting ArgSetting.IgnoreCase else a.unset_setting ArgSetting.IgnoreCase

/-- `Arg::use_delimiter`: at `true` it resolves a missing delimiter character
to `','`, implies takes-a-value and use-a-delimiter and clears the
delimiter-not-set marker; at `false` it drops the delimiter character and
clears use-a-delimiter and the marker. -/
def Arg.use_delimiter (a : Arg) (d : Bool) : Arg :=
  if d then
    let a1 := if a.val_delim.isNone then { a with val_delim := some ',' } else a
    ((a1.set_mut ArgSetting.TakesValue).set_mut
        ArgSetting.UseValueDelimiter).unset_setting ArgSetting.ValueDelimiterNotSet
  else
    ({ a with val_delim := none }.unset_mut
        ArgSetting.UseValueDelimiter).unset_setting ArgSetting.ValueDelimiterNotSet

/-- `Arg::hide_env_values`. -/
def Arg.hide_env_values (a : Arg) (h : Bool) : Arg :=
  if h then a.setting ArgSetting.HideEnvValues
  else a.unset_setting ArgSetting.HideEnvValues

/-- `Arg::next_line_help`. -/
def Arg.next_line_help (a : Arg) (nlh : Bool) : Arg :=
  if nlh then a.set_mut ArgSetting.NextLineHelp else a.unset_mut ArgSetting.NextLineHelp

/-- `Arg::multiple`. -/
def Arg.multiple (a : Arg) (m : Bool) : Arg :=
  if m then (a.set_mut ArgSetting.MultipleOccurrences).setting ArgSetting.MultipleValues
  else (a.unset_mut ArgSetting.MultipleOccurrences).unset_setting ArgSetting.MultipleValues

/-- `Arg::multiple_values`. -/
def Arg.multiple_values (a : Arg) (m : Bool) : Arg :=
  if m then a.setting ArgSetting.MultipleValues
  else a.unset_setting ArgSetting.MultipleValues

/-- `Arg::multiple_occurrences`. -/
def Arg.multiple_occurrences (a : Arg) (m : Bool) : Arg :=
  if m then a.setting ArgSetting.MultipleOccurrences
  else a.unset_setting ArgSetting.MultipleOccurrences

/-- `Arg::raw`. -/
def Arg.raw (a : Arg) (r : Bool) : Arg :=
  ((a.multiple r).allow_hyphen_values r).last r

/-- `Arg::hidden_short_help`. -/
def Arg.hidden_short_help (a : Arg) (h : Bool) : Arg :=
  if h then a.setting ArgSetting.HiddenShortHelp
  else a.unset_setting ArgSetting.HiddenShortHelp

/-- `Arg::hidden_long_help`. -/
def Arg.hidden_long_help (a : Arg) (h : Bool) : Arg :=
  if h then a.setting ArgSetting.HiddenLongHelp
  else a.unset_setting ArgSetting.HiddenLongHelp

/-- `Arg::help_heading` (the method). -/
def Arg.help_heading' (a : Arg) (s : Option String) : Arg := { a with help_heading := s }

/-- First half of `Arg::_build`: when use-a-delimiter or require-a-delimiter is
active and no delimiter character was set, resolve it to the default `','`. -/
def Arg.build_delim (a : Arg) : Arg :=
  if (a.is_set ArgSetting.UseValueDelimiter || a.is_set ArgSetting.RequireDelimiter)
      && a.val_delim.isNone then
    { a with val_delim := some ',' }
  else a

/-- Second half of `Arg::_build`: for a positional argument (an index, or
neither token) any arity bound — or an exact count above one — implies both
multiple-values and multiple-occurrences; otherwise, for a named argument that
takes a value, more than one value name forces the exact count to the list
length. -/
def Arg.build_arity (a : Arg) : Arg :=
  if a.index.isSome || (a.short.isNone && a.long.isNone) then
    if a.max_vals.isSome || a.min_vals.isSome
        || (a.num_vals.isSome && (a.num_vals.getD 0 > 1)) then
      { a with settings := (a.settings.set ArgSetting.MultipleValues).set
                  ArgSetting.MultipleOccurrences }
    else a
  else if a.is_set ArgSetting.TakesValue && a.val_names.len > 1 then
    { a with num_vals := some a.val_names.len }
  else a

/-- `Arg::_build`: the normalization pass, delimiter resolution followed by
arity reconciliation. -/
def Arg.build (a : Arg) : Arg := a.build_delim.build_arity

/-- `Arg::_debug_asserts`: `true` exactly when the assertion pass succeeds,
i.e. the conflict set does not contain the argument's own identity. -/
def Arg.debug_asserts (a : Arg) : Bool :=
  !(a.blacklist.any (fun x => decide (x = a.id)))

/-- `impl PartialEq for Arg`: equality compares the declared names only. -/
def Arg.beq (a b : Arg) : Bool := a.name == b.name

/-- `impl Ord for Arg`: ordering compares the declared names only. -/
def Arg.cmp (a b : Arg) : Ordering := compare a.name b.name

end Clap

namespace Clap

/-! ### Basic lemmas about the settings collection -/

theorem ArgFlags.is_set_set (f : ArgFlags) (s t : ArgSetting) :
    (f.set s).is_set t = (f.is_set t || decide (t = s)) := by
  unfold ArgFlags.set ArgFlags.is_set
  by_cases h : s ∈ f.flags
  · by_cases ht : t = s
    · subst ht; simp [h]
    · simp [h, ht]
  · simp [h, List.mem_append]

theorem ArgFlags.is_set_unset (f : ArgFlags) (s t : ArgSetting) :
    (f.unset s).is_set t = (f.is_set t && decide (t ≠ s)) := by
  unfold ArgFlags.unset ArgFlags.is_set
  simp [List.mem_filter]

theorem ArgFlags.set_of_is_set (f : ArgFlags) (s : ArgSetting)
    (h : f.is_set s = true) : f.set s = f := by
  unfold ArgFlags.is_set at h
  unfold ArgFlags.set
  simp only [decide_eq_true_eq] at h
  simp [h]

theorem ArgFlags.is_set_mono_set (f : ArgFlags) (s t : ArgSetting)
    (h : f.is_set s = true) : (f.set t).is_set s = true := by
  rw [ArgFlags.is_set_set]; simp [h]

theorem ArgFlags.is_set_unset_ne (f : ArgFlags) (s t : ArgSetting)
    (hne : s ≠ t) : (f.unset t).is_set s = f.is_set s := by
  rw [ArgFlags.is_set_unset]; simp [hne]

theorem ArgFlags.is_set_set_self (f : ArgFlags) (s : ArgSetting) :
    (f.set s).is_set s = true := by
  rw [ArgFlags.is_set_set]; simp

theorem ArgFlags.is_set_set_ne (f : ArgFlags) (s t : ArgSetting) (hne : t ≠ s) :
    (f.set s).is_set t = f.is_set t := by
  rw [ArgFlags.is_set_set]; simp [hne]

/-! ### Frame lemmas for the two normalization steps -/

theorem Arg.build_delim_settings (a : Arg) : a.build_delim.settings = a.settings := by
  unfold Arg.build_delim; split <;> rfl

theorem Arg.build_delim_short (a : Arg) : a.build_delim.short = a.short := by
  unfold Arg.build_delim; split <;> rfl

theorem Arg.build_delim_long (a : Arg) : a.build_delim.long = a.long := by
  unfold Arg.build_delim; split <;> rfl

theorem Arg.build_delim_index (a : Arg) : a.build_delim.index = a.index := by
  unfold Arg.build_delim; split <;> rfl

theorem Arg.build_delim_min_vals (a : Arg) : a.build_delim.min_vals = a.min_vals := by
  unfold Arg.build_delim; split <;> rfl

theorem Arg.build_delim_max_vals (a : Arg) : a.build_delim.max_vals = a.max_vals := by
  unfold Arg.build_delim; split <;> rfl

theorem Arg.build_delim_num_vals (a : Arg) : a.build_delim.num_vals = a.num_vals := by
  unfold Arg.build_delim; split <;> rfl

theorem Arg.build_delim_val_names (a : Arg) : a.build_delim.val_names = a.val_names := by
  unfold Arg.build_delim; split <;> rfl

theorem Arg.build_arity_val_delim (a : Arg) : a.build_arity.val_delim = a.val_delim := by
  unfold Arg.build_arity; split <;> [split <;> rfl; (split <;> rfl)]

theorem Arg.build_arity_num_vals_of_pos (a : Arg)
    (h : (a.index.isSome || (a.short.isNone && a.long.isNone)) = true) :
    a.build_arity.num_vals = a.num_vals := by
  unfold Arg.build_arity
  rw [if_pos h]
  split <;> rfl

theorem Arg.build_arity_settings_of_named (a : Arg)
    (h : (a.index.isSome || (a.short.isNone && a.long.isNone)) = false) :
    a.build_arity.settings = a.settings := by
  unfold Arg.build_arity
  rw [if_neg (by simp [h])]
  split <;> rfl


theorem Arg.build_arity_is_set_other (a : Arg) (s : ArgSetting)
    (h1 : s ≠ ArgSetting.MultipleValues) (h2 : s ≠ ArgSetting.MultipleOccurrences) :
    a.build_arity.is_set s = a.is_set s := by
  unfold Arg.build_arity
  split
  · split
    · simp [Arg.is_set, ArgFlags.is_set_set, h1, h2]
    · rfl
  · split <;> rfl

theorem Arg.delim_cond_after (a : Arg) :
    ((a.build_delim.is_set ArgSetting.UseValueDelimiter
      || a.build_delim.is_set ArgSetting.RequireDelimiter)
      && a.build_delim.val_delim.isNone) = false := by
  unfold Arg.build_delim
  split
  · simp [Arg.is_set]
  · rename_i h
    exact Bool.eq_false_iff.mpr h

theorem Arg.build_delim_id_of (b : Arg)
    (h : ((b.is_set ArgSetting.UseValueDelimiter || b.is_set ArgSetting.RequireDelimiter)
        && b.val_delim.isNone) = false) : b.build_delim = b := by
  unfold Arg.build_delim
  simp [h]

theorem Arg.build_arity_index (a : Arg) : a.build_arity.index = a.index := by
  unfold Arg.build_arity; split <;> [skip; skip] <;> split <;> rfl

theorem Arg.build_arity_short (a : Arg) : a.build_arity.short = a.short := by
  unfold Arg.build_arity; split <;> [skip; skip] <;> split <;> rfl

theorem Arg.build_arity_long (a : Arg) : a.build_arity.long = a.long := by
  unfold Arg.build_arity; split <;> [skip; skip] <;> split <;> rfl

theorem Arg.build_arity_max_vals (a : Arg) : a.build_arity.max_vals = a.max_vals := by
  unfold Arg.build_arity; split <;> [skip; skip] <;> split <;> rfl

theorem Arg.build_arity_min_vals (a : Arg) : a.build_arity.min_vals = a.min_vals := by
  unfold Arg.build_arity; split <;> [skip; skip] <;> split <;> rfl

theorem Arg.build_arity_val_names (a : Arg) : a.build_arity.val_names = a.val_names := by
  unfold Arg.build_arity; split <;> [skip; skip] <;> split <;> rfl

theorem Arg.build_arity_eq_pos_update (a : Arg)
    (hd : (a.index.isSome || (a.short.isNone && a.long.isNone)) = true)
    (hc : (a.max_vals.isSome || a.min_vals.isSome
        || (a.num_vals.isSome && decide (a.num_vals.getD 0 > 1))) = true) :
    a.build_arity
      = { a with settings :=
            ((a.settings.set ArgSetting.MultipleValues).set ArgSetting.MultipleOccurrences) } := by
  unfold Arg.build_arity
  rw [if_pos hd, if_pos hc]

theorem Arg.build_arity_eq_pos_id (a : Arg)
    (hd : (a.index.isSome || (a.short.isNone && a.long.isNone)) = true)
    (hc : (a.max_vals.isSome || a.min_vals.isSome
        || (a.num_vals.isSome && decide (a.num_vals.getD 0 > 1))) = false) :
    a.build_arity = a := by
  unfold Arg.build_arity
  rw [if_pos hd, if_neg (by simp [hc])]

theorem Arg.build_arity_eq_named_update (a : Arg)
    (hd : (a.index.isSome || (a.short.isNone && a.long.isNone)) = false)
    (hc : (a.is_set ArgSetting.TakesValue && decide (a.val_names.len > 1)) = true) :
    a.build_arity = { a with num_vals := some a.val_names.len } := by
  unfold Arg.build_arity
  rw [if_neg (by simp [hd]), if_pos hc]

theorem Arg.build_arity_eq_named_id (a : Arg)
    (hd : (a.index.isSome || (a.short.isNone && a.long.isNone)) = false)
    (hc : (a.is_set ArgSetting.TakesValue && decide (a.val_names.len > 1)) = false) :
    a.build_arity = a := by
  unfold Arg.build_arity
  rw [if_neg (by simp [hd]), if_neg (by simp [hc])]

theorem Arg.build_arity_fix (a : Arg) : a.build_arity.build_arity = a.build_arity := by
  by_cases hd : (a.index.isSome || (a.short.isNone && a.long.isNone)) = true
  · by_cases hc : (a.max_vals.isSome || a.min_vals.isSome
        || (a.num_vals.isSome && decide (a.num_vals.getD 0 > 1))) = true
    · have hdb : (a.build_arity.index.isSome
          || (a.build_arity.short.isNone && a.build_arity.long.isNone)) = true := by
        rw [Arg.build_arity_index, Arg.build_arity_short, Arg.build_arity_long]
        exact hd
      have hcb : (a.build_arity.max_vals.isSome || a.build_arity.min_vals.isSome
          || (a.build_arity.num_vals.isSome
              && decide (a.build_arity.num_vals.getD 0 > 1))) = true := by
        rw [Arg.build_arity_max_vals, Arg.build_arity_min_vals,
            Arg.build_arity_num_vals_of_pos a hd]
        exact hc
      rw [Arg.build_arity_eq_pos_update a.build_arity hdb hcb]
      have hs : (a.build_arity.settings.set ArgSetting.MultipleValues).set
          ArgSetting.MultipleOccurrences = a.build_arity.settings := by
        rw [Arg.build_arity_eq_pos_update a hd hc]
        show ((((a.settings.set ArgSetting.MultipleValues).set
            ArgSetting.MultipleOccurrences).set ArgSetting.MultipleValues).set
            ArgSetting.MultipleOccurrences)
          = (a.settings.set ArgSetting.MultipleValues).set ArgSetting.MultipleOccurrences
        rw [ArgFlags.set_of_is_set
          ((a.settings.set ArgSetting.MultipleValues).set ArgSetting.MultipleOccurrences)
          ArgSetting.MultipleValues
          (ArgFlags.is_set_mono_set _ _ _ (ArgFlags.is_set_set_self _ _))]
        exact ArgFlags.set_of_is_set _ _ (ArgFlags.is_set_set_self _ _)
      rw [hs]
    · have hf : a.build_arity = a :=
        Arg.build_arity_eq_pos_id a hd (Bool.eq_false_iff.mpr hc)
      rw [hf, hf]
  · have hd' : (a.index.isSome || (a.short.isNone && a.long.isNone)) = false :=
      Bool.eq_false_iff.mpr hd
    by_cases hc : (a.is_set ArgSetting.TakesValue && decide (a.val_names.len > 1)) = true
    · have hdb : (a.build_arity.index.isSome
          || (a.build_arity.short.isNone && a.build_arity.long.isNone)) = false := by
        rw [Arg.build_arity_index, Arg.build_arity_short, Arg.build_arity_long]
        exact hd'
      have hcb : (a.build_arity.is_set ArgSetting.TakesValue
          && decide (a.build_arity.val_names.len > 1)) = true := by
        rw [Arg.build_arity_is_set_other _ _ (by decide) (by decide),
            Arg.build_arity_val_names]
        exact hc
      rw [Arg.build_arity_eq_named_update a.build_arity hdb hcb]
      have hn : some a.build_arity.val_names.len = a.build_arity.num_vals := by
        rw [Arg.build_arity_val_names, Arg.build_arity_eq_named_update a hd' hc]
      rw [hn]
    · have hf : a.build_arity = a :=
        Arg.build_arity_eq_named_id a hd' (Bool.eq_false_iff.mpr hc)
      rw [hf, hf]

/-- C2: the normalization pass is idempotent — running `_build` twice produces
exactly the same record as running it once, for every argument specification. -/
theorem C2_build_idempotent (a : Arg) : a.build.build = a.build := by
  show (a.build_delim.build_arity).build_delim.build_arity = a.build_delim.build_arity
  have h1 : (a.build_delim.build_arity).build_delim = a.build_delim.build_arity := by
    apply Arg.build_delim_id_of
    rw [Arg.build_arity_is_set_other _ _ (by decide) (by decide),
        Arg.build_arity_is_set_other _ _ (by decide) (by decide),
        Arg.build_arity_val_delim]
    exact Arg.delim_cond_after a
  rw [h1, Arg.build_arity_fix]

/-- C1: a positional argument (neither a short nor a long token) configured
with `min_values(2)` and no explicit multiple-values / multiple-occurrences
setting gets both settings from the normalization pass, while a named argument
(a long token, no index) configured with the same `min_values(2)` ends up with
neither. -/
theorem C1_min_values_positional_vs_named (p q : Arg) (l : String)
    (hps : p.short = none) (hpl : p.long = none)
    (_hpm : p.is_set ArgSetting.MultipleValues = false)
    (_hpo : p.is_set ArgSetting.MultipleOccurrences = false)
    (hqi : q.index = none) (hql : q.long = some l)
    (hqm : q.is_set ArgSetting.MultipleValues = false)
    (hqo : q.is_set ArgSetting.MultipleOccurrences = false) :
    ((p.min_values 2).build.is_set ArgSetting.MultipleValues = true
      ∧ (p.min_values 2).build.is_set ArgSetting.MultipleOccurrences = true)
    ∧ ((q.min_values 2).build.is_set ArgSetting.MultipleValues = false
      ∧ (q.min_values 2).build.is_set ArgSetting.MultipleOccurrences = false) := by
  constructor
  · have hs : (p.min_values 2).build_delim.short = none := by
      rw [Arg.build_delim_short]
      simpa [Arg.min_values, Arg.setting, Arg.set_mut] using hps
    have hl : (p.min_values 2).build_delim.long = none := by
      rw [Arg.build_delim_long]
      simpa [Arg.min_values, Arg.setting, Arg.set_mut] using hpl
    have hm : (p.min_values 2).build_delim.min_vals = some 2 := by
      rw [Arg.build_delim_min_vals]
      simp [Arg.min_values, Arg.setting, Arg.set_mut]
    have hdisc : ((p.min_values 2).build_delim.index.isSome
        || ((p.min_values 2).build_delim.short.isNone
            && (p.min_values 2).build_delim.long.isNone)) = true := by
      rw [hs, hl]; simp
    have hari : ((p.min_values 2).build_delim.max_vals.isSome
        || (p.min_values 2).build_delim.min_vals.isSome
        || ((p.min_values 2).build_delim.num_vals.isSome
            && ((p.min_values 2).build_delim.num_vals.getD 0 > 1))) = true := by
      rw [hm]; simp
    show ((p.min_values 2).build_delim.build_arity.is_set ArgSetting.MultipleValues = true
      ∧ (p.min_values 2).build_delim.build_arity.is_set ArgSetting.MultipleOccurrences = true)
    unfold Arg.build_arity
    rw [if_pos hdisc, if_pos hari]
    constructor <;> simp [Arg.is_set, ArgFlags.is_set_set]
  · have hi : (q.min_values 2).build_delim.index = none := by
      rw [Arg.build_delim_index]
      simpa [Arg.min_values, Arg.setting, Arg.set_mut] using hqi
    have hl : (q.min_values 2).build_delim.long = some l := by
      rw [Arg.build_delim_long]
      simpa [Arg.min_values, Arg.setting, Arg.set_mut] using hql
    have hdisc : ((q.min_values 2).build_delim.index.isSome
        || ((q.min_values 2).build_delim.short.isNone
            && (q.min_values 2).build_delim.long.isNone)) = false := by
      rw [hi, hl]; simp
    have hset : (q.min_values 2).build.settings = (q.min_values 2).build_delim.settings :=
      Arg.build_arity_settings_of_named _ hdisc
    have hset2 : (q.min_values 2).build_delim.settings
        = q.settings.set ArgSetting.TakesValue := by
      rw [Arg.build_delim_settings]
      simp [Arg.min_values, Arg.setting, Arg.set_mut]
    constructor
    · show ((q.min_values 2).build.settings.is_set ArgSetting.MultipleValues = false)
      rw [hset, hset2, ArgFlags.is_set_set]
      simpa [Arg.is_set] using hqm
    · show ((q.min_values 2).build.settings.is_set ArgSetting.MultipleOccurrences = false)
      rw [hset, hset2, ArgFlags.is_set_set]
      simpa [Arg.is_set] using hqo

/-- Witness for C1 at concrete arguments: a positional `p` and a named
`--flag`, both with `min_values(2)`. -/
theorem C1_witness :
    (((Arg.new "p").min_values 2).build.is_set ArgSetting.MultipleValues = true
      ∧ ((Arg.new "p").min_values 2).build.is_set ArgSetting.MultipleOccurrences = true)
    ∧ (((Arg.long' (Arg.new "f") "flag").min_values 2).build.is_set
          ArgSetting.MultipleValues = false
      ∧ ((Arg.long' (Arg.new "f") "flag").min_values 2).build.is_set
          ArgSetting.MultipleOccurrences = false) :=
  C1_min_values_positional_vs_named (Arg.new "p") (Arg.long' (Arg.new "f") "flag")
    ("flag".dropWhile (fun c => c = '-'))
    rfl rfl (by decide) (by decide) rfl rfl (by decide) (by decide)

/-- C3: the self-conflict invariant — the assertion pass fails exactly when
the conflict set contains the argument's own identity, while `conflicts_with`
itself never fails: it just appends to the conflict set, even for a
self-conflict, which only the later assertion pass rejects. -/
theorem C3_self_conflict_assertion (a : Arg) (i : Id) :
    (a.debug_asserts = false ↔ a.id ∈ a.blacklist)
    ∧ (a.conflicts_with i).blacklist = a.blacklist ++ [i]
    ∧ (a.conflicts_with a.id).debug_asserts = false := by
  refine ⟨?_, rfl, ?_⟩
  · simp [Arg.debug_asserts, List.any_eq_true]
  · simp [Arg.conflicts_with, Arg.debug_asserts, List.any_eq_true]

theorem Arg.short_aliases'_eq_none_iff (a : Arg) (cs : List Char) :
    (a.short_aliases' cs = none) ↔ '-' ∈ cs := by
  induction cs generalizing a with
  | nil => simp [Arg.short_aliases']
  | cons c rest ih =>
    by_cases h : c = '-'
    · subst h; simp [Arg.short_aliases']
    · simp [Arg.short_aliases', h, Ne.symm h, ih]

theorem Arg.visible_short_aliases_eq_none_iff (a : Arg) (cs : List Char) :
    (a.visible_short_aliases cs = none) ↔ '-' ∈ cs := by
  induction cs generalizing a with
  | nil => simp [Arg.visible_short_aliases]
  | cons c rest ih =>
    by_cases h : c = '-'
    · subst h; simp [Arg.visible_short_aliases]
    · simp [Arg.visible_short_aliases, h, Ne.symm h, ih]

/-- C4: every short-token / short-alias configuration operation raises a
configuration error exactly on the reserved separator `'-'` (for the list
variants: exactly when the list contains `'-'`), and on any other character it
succeeds and records the token. -/
theorem C4_short_dash_rejected (a : Arg) (c : Char) (cs : List Char) :
    (a.short' c = none ↔ c = '-')
    ∧ (a.short_alias c = none ↔ c = '-')
    ∧ (a.visible_short_alias c = none ↔ c = '-')
    ∧ (a.short_aliases' cs = none ↔ '-' ∈ cs)
    ∧ (a.visible_short_aliases cs = none ↔ '-' ∈ cs)
    ∧ (c ≠ '-' →
        a.short' c = some { a with short := some c }
        ∧ a.short_alias c = some { a with short_aliases := a.short_aliases ++ [(c, false)] }
        ∧ a.visible_short_alias c
            = some { a with short_aliases := a.short_aliases ++ [(c, true)] }) := by
  refine ⟨?_, ?_, ?_, Arg.short_aliases'_eq_none_iff a cs,
      Arg.visible_short_aliases_eq_none_iff a cs, ?_⟩
  · unfold Arg.short'
    split <;> simp_all
  · unfold Arg.short_alias
    split <;> simp_all
  · unfold Arg.visible_short_alias
    split <;> simp_all
  · intro h
    refine ⟨?_, ?_, ?_⟩ <;> simp [Arg.short', Arg.short_alias, Arg.visible_short_alias, h]

/-- Witness for C4 at a concrete character and lists containing or missing the
separator. -/
theorem C4_witness :
    (Arg.short' (Arg.new "x") 'c' = some { Arg.new "x" with short := some 'c' })
    ∧ (Arg.short' (Arg.new "x") '-' = none)
    ∧ ((Arg.new "x").short_aliases' ['a', '-'] = none)
    ∧ ((Arg.new "x").visible_short_aliases ['a', 'b'] ≠ none) := by
  have h := C4_short_dash_rejected (Arg.new "x") 'c' ['a', '-']
  have h2 := C4_short_dash_rejected (Arg.new "x") 'c' ['a', 'b']
  refine ⟨(h.2.2.2.2.2 (by decide)).1, ?_, ?_, ?_⟩
  · exact (C4_short_dash_rejected (Arg.new "x") '-' []).1.mpr rfl
  · exact h.2.2.2.1.mpr (by decide)
  · intro hc
    exact (by decide : ¬('-' ∈ ['a', 'b'])) (h2.2.2.2.2.1.mp hc)

/-- C5 (counterexample): for a positional argument the value-name list length
is not copied into the exact count by normalization: a positional with two
value names still has `num_vals = none` after `_build`. -/
theorem C5_counterexample :
    ((Arg.new "pos").value_names ["one", "two"]).val_names.len = 2
    ∧ ¬((((Arg.new "pos").value_names ["one", "two"]).build).num_vals
        = some ((Arg.new "pos").value_names ["one", "two"]).val_names.len) := by
  decide

/-- C5 (amended): for a named argument (no index and at least one token) with
the takes-a-value setting whose value-name list has more than one entry, the
normalization pass sets the exact count to the list length; for positional
arguments this implication does not apply. -/
theorem C5_value_names_force_num_vals (a : Arg)
    (hidx : a.index = none)
    (hnl : (a.short.isNone && a.long.isNone) = false)
    (htv : a.is_set ArgSetting.TakesValue = true)
    (hlen : 1 < a.val_names.len) :
    a.build.num_vals = some a.val_names.len := by
  have hd : (a.build_delim.index.isSome
      || (a.build_delim.short.isNone && a.build_delim.long.isNone)) = false := by
    rw [Arg.build_delim_index, Arg.build_delim_short, Arg.build_delim_long]
    simp [hidx, hnl]
  have htv' : a.build_delim.is_set ArgSetting.TakesValue = true := by
    show a.build_delim.settings.is_set ArgSetting.TakesValue = true
    rw [Arg.build_delim_settings]
    exact htv
  have hc : (a.build_delim.is_set ArgSetting.TakesValue
      && decide (a.build_delim.val_names.len > 1)) = true := by
    rw [htv', Arg.build_delim_val_names]
    simp [hlen]
  show a.build_delim.build_arity.num_vals = some a.val_names.len
  rw [Arg.build_arity_eq_named_update a.build_delim hd hc, Arg.build_delim_val_names]

/-- Witness for the amended C5 at a concrete named `--opt` argument with two
value names. -/
theorem C5_witness :
    ((Arg.long' (Arg.new "o") "opt").value_names ["a", "b"]).build.num_vals = some 2 :=
  (C5_value_names_force_num_vals ((Arg.long' (Arg.new "o") "opt").value_names ["a", "b"])
      rfl rfl (by decide) (by decide)).trans (by decide)

/-- C6: the normalization pass resolves a missing delimiter character to the
default `','` exactly when use-a-delimiter or require-a-delimiter is active,
and it never changes an explicitly set delimiter character. -/
theorem C6_delimiter_default (a : Arg) :
    ((a.is_set ArgSetting.UseValueDelimiter = true
        ∨ a.is_set ArgSetting.RequireDelimiter = true) →
      a.val_delim = none → a.build.val_delim = some ',')
    ∧ (∀ c : Char, a.val_delim = some c → a.build.val_delim = some c) := by
  constructor
  · intro h hnone
    show a.build_delim.build_arity.val_delim = some ','
    rw [Arg.build_arity_val_delim]
    unfold Arg.build_delim
    rw [if_pos (show ((a.is_set ArgSetting.UseValueDelimiter
        || a.is_set ArgSetting.RequireDelimiter) && a.val_delim.isNone) = true by
      rcases h with h | h <;> simp [h, hnone])]
  · intro c hc
    show a.build_delim.build_arity.val_delim = some c
    rw [Arg.build_arity_val_delim]
    unfold Arg.build_delim
    rw [if_neg (by simp [hc])]
    exact hc

/-- Witness for C6: one argument with use-a-delimiter active and no delimiter
character, one with an explicit `';'`. -/
theorem C6_witness :
    ((Arg.new "x").setting ArgSetting.UseValueDelimiter).build.val_delim = some ','
    ∧ ({ Arg.new "y" with val_delim := some ';' } : Arg).build.val_delim = some ';' :=
  ⟨(C6_delimiter_default _).1 (Or.inl (by decide)) rfl,
   (C6_delimiter_default _).2 ';' rfl⟩

/-- C7 (counterexample): installing a validator does not imply the
takes-a-value setting — on a fresh argument, `validator` leaves it unset. -/
theorem C7_counterexample :
    ((Arg.new "a").validator' (fun _ => Except.ok ())).is_set
      ArgSetting.TakesValue = false := rfl

/-- C7 (amended): declaring value names, defaults or a delimiter always
implies takes-a-value; the environment fallback implies it only when
multiple-occurrences is not already set (and otherwise leaves the settings
untouched); installing a validator never touches the settings at all. -/
theorem C7_takes_value_implications (a b : Arg) (n d : String) (ns vs : List String)
    (f : String → Except String Unit) (ev : Option String) :
    ((a.value_name n).is_set ArgSetting.TakesValue = true)
    ∧ ((a.value_names ns).is_set ArgSetting.TakesValue = true)
    ∧ ((a.default_value n).is_set ArgSetting.TakesValue = true)
    ∧ ((a.default_values_os vs).is_set ArgSetting.TakesValue = true)
    ∧ (a.value_delimiter d = some b → b.is_set ArgSetting.TakesValue = true)
    ∧ (a.is_set ArgSetting.MultipleOccurrences = false →
        (a.env_os n ev).is_set ArgSetting.TakesValue = true)
    ∧ (a.is_set ArgSetting.MultipleOccurrences = true → (a.env_os n ev).settings = a.settings)
    ∧ ((a.validator' f).settings = a.settings)
    ∧ ((a.validator_os' f).settings = a.settings) := by
  refine ⟨?_, ?_, ?_, ?_, ?_, ?_, ?_, rfl, rfl⟩
  · show ((a.set_mut ArgSetting.TakesValue).settings.is_set ArgSetting.TakesValue = true)
    simp [Arg.set_mut, ArgFlags.is_set_set_self]
  · unfold Arg.value_names
    show Arg.is_set _ _ = true
    dsimp only
    split
    · simp [Arg.is_set, Arg.set_mut, Arg.unset_mut, ArgFlags.is_set_set,
        ArgFlags.is_set_unset, ArgFlags.is_set_set_self]
    · simp [Arg.is_set, Arg.set_mut, ArgFlags.is_set_set_self]
  · simp [Arg.default_value, Arg.default_values_os, Arg.is_set, Arg.set_mut,
      ArgFlags.is_set_set_self]
  · simp [Arg.default_values_os, Arg.is_set, Arg.set_mut, ArgFlags.is_set_set_self]
  · intro h
    unfold Arg.value_delimiter at h
    split at h
    · exact absurd h (by simp)
    · simp only [Option.some.injEq] at h
      subst h
      simp [Arg.is_set, Arg.set_mut, Arg.unset_mut, ArgFlags.is_set_set,
        ArgFlags.is_set_set_self]
  · intro h
    unfold Arg.env_os
    simp only [Arg.is_set] at h
    simp [Arg.is_set, h, Arg.set_mut, ArgFlags.is_set_set_self]
  · intro h
    unfold Arg.env_os
    simp only [Arg.is_set] at h
    simp [Arg.is_set, h]

/-- Witness for the amended C7 at concrete arguments. -/
theorem C7_witness :
    ((Arg.new "x").value_name "V").is_set ArgSetting.TakesValue = true
    ∧ ((((Arg.new "x").value_delimiter ",").getD (Arg.new "x")).is_set
        ArgSetting.TakesValue = true)
    ∧ ((Arg.new "x").env_os "EV" none).is_set ArgSetting.TakesValue = true
    ∧ (((Arg.new "y").multiple_occurrences true).env_os "EV" none).settings
        = ((Arg.new "y").multiple_occurrences true).settings
    ∧ ((Arg.new "x").validator' (fun _ => Except.ok ())).settings = (Arg.new "x").settings := by
  refine ⟨?_, ?_, ?_, ?_, ?_⟩
  · exact (C7_takes_value_implications (Arg.new "x") (Arg.new "x") "V" "," [] []
      (fun _ => Except.ok ()) none).1
  · exact (C7_takes_value_implications (Arg.new "x")
      (((Arg.new "x").value_delimiter ",").getD (Arg.new "x")) "V" "," [] []
      (fun _ => Except.ok ()) none).2.2.2.2.1 rfl
  · exact (C7_takes_value_implications (Arg.new "x") (Arg.new "x") "EV" "," [] []
      (fun _ => Except.ok ()) none).2.2.2.2.2.1 (by decide)
  · exact (C7_takes_value_implications ((Arg.new "y").multiple_occurrences true)
      (Arg.new "y") "EV" "," [] [] (fun _ => Except.ok ()) none).2.2.2.2.2.2.1 (by decide)
  · exact (C7_takes_value_implications (Arg.new "x") (Arg.new "x") "V" "," [] []
      (fun _ => Except.ok ()) none).2.2.2.2.2.2.2.1

/-- C8 (counterexample): the implication lattice is not monotonic — the
boolean setter `use_delimiter(true)` removes the delimiter-not-set marker flag
that was present before the call. -/
theorem C8_counterexample :
    ((Arg.new "x").setting ArgSetting.ValueDelimiterNotSet).is_set
        ArgSetting.ValueDelimiterNotSet = true
    ∧ (((Arg.new "x").setting ArgSetting.ValueDelimiterNotSet).use_delimiter true).is_set
        ArgSetting.ValueDelimiterNotSet = false := by
  decide

/-- C10: equality and ordering of argument specifications are determined by
the declared name alone — two specifications are equal exactly when their
names coincide (whatever their other fields hold), and comparison is the
comparison of the names. -/
theorem C10_eq_and_ord_by_name (a b : Arg) :
    (Arg.beq a b = true ↔ a.name = b.name)
    ∧ (Arg.cmp a b = compare a.name b.name)
    ∧ (a.name = b.name → Arg.beq a b = true ∧ Arg.cmp a b = Ordering.eq) := by
  refine ⟨?_, rfl, ?_⟩
  · simp [Arg.beq]
  · intro h
    refine ⟨by simp [Arg.beq, h], ?_⟩
    unfold Arg.cmp
    exact Batteries.BEqCmp.cmp_iff_eq.mpr h

/-- Witness for C10: two specifications sharing the name but differing in
tokens and settings compare equal. -/
theorem C10_witness :
    Arg.beq ((Arg.long' (Arg.new "n") "nnn").multiple true) (Arg.new "n") = true
    ∧ Arg.cmp ((Arg.long' (Arg.new "n") "nnn").multiple true) (Arg.new "n") = Ordering.eq :=
  (C10_eq_and_ord_by_name ((Arg.long' (Arg.new "n") "nnn").multiple true) (Arg.new "n")).2.2 rfl

/-- The catalogue of chained configuration operations of `Arg` (one constructor
per public builder method modelled above; validator callbacks and the ambient
environment value are carried as data so that application stays pure). -/
inductive ConfigOp where
  | short (c : Char)
  | long (l : String)
  | alias (n : String)
  | aliases (ns : List String)
  | visible_alias (n : String)
  | visible_aliases (ns : List String)
  | short_alias (c : Char)
  | short_aliases (cs : List Char)
  | visible_short_alias (c : Char)
  | visible_short_aliases (cs : List Char)
  | about (h : String)
  | long_about (h : String)
  | required_unless (i : Id)
  | required_unless_all (ns : List String)
  | required_unless_one (ns : List String)
  | conflicts_with (i : Id)
  | conflicts_with_all (ns : List String)
  | exclusive (e : Bool)
  | overrides_with (i : Id)
  | overrides_with_all (is_ : List Id)
  | requires (i : Id)
  | requires_if (v : String) (i : Id)
  | requires_ifs (ifs : List (String × Id))
  | required_if (i : Id) (v : String)
  | required_ifs (ifs : List (Id × String))
  | requires_all (is_ : List Id)
  | index (n : Nat)
  | value_terminator (t : String)
  | possible_values (ns : List String)
  | possible_value (n : String)
  | group (i : Id)
  | groups (is_ : List Id)
  | number_of_values (n : Nat)
  | validator (f : String → Except String Unit)
  | validator_os (f : String → Except String Unit)
  | max_values (n : Nat)
  | min_values (n : Nat)
  | value_delimiter (d : String)
  | value_names (ns : List String)
  | value_name (n : String)
  | default_values_os (vs : List String)
  | default_missing_values_os (vs : List String)
  | default_value_if_os (i : Id) (v : Option String) (d : String)
  | env_os (n : String) (ev : Option String)
  | display_order (n : Nat)
  | last (b : Bool)
  | required (b : Bool)
  | takes_value (b : Bool)
  | allow_hyphen_values (b : Bool)
  | require_equals (b : Bool)
  | global (b : Bool)
  | require_delimiter (b : Bool)
  | hide_possible_values (b : Bool)
  | hide_default_value (b : Bool)
  | hidden (b : Bool)
  | case_insensitive (b : Bool)
  | use_delimiter (b : Bool)
  | hide_env_values (b : Bool)
  | next_line_help (b : Bool)
  | multiple (b : Bool)
  | multiple_values (b : Bool)
  | multiple_occurrences (b : Bool)
  | raw (b : Bool)
  | hidden_short_help (b : Bool)
  | hidden_long_help (b : Bool)
  | setting (s : ArgSetting)
  | settings (ss : List ArgSetting)
  | unset_setting (s : ArgSetting)
  | help_heading (s : Option String)

/-- Apply one configuration operation (`none` models a configuration panic). -/
def applyOp : ConfigOp → Arg → Option Arg
  | ConfigOp.short c, a => a.short' c
  | ConfigOp.long l, a => some (a.long' l)
  | ConfigOp.alias n, a => some (a.alias n)
  | ConfigOp.aliases ns, a => some (a.aliases' ns)
  | ConfigOp.visible_alias n, a => some (a.visible_alias n)
  | ConfigOp.visible_aliases ns, a => some (a.visible_aliases ns)
  | ConfigOp.short_alias c, a => a.short_alias c
  | ConfigOp.short_aliases cs, a => a.short_aliases' cs
  | ConfigOp.visible_short_alias c, a => a.visible_short_alias c
  | ConfigOp.visible_short_aliases cs, a => a.visible_short_aliases cs
  | ConfigOp.about h, a => some (a.about' h)
  | ConfigOp.long_about h, a => some (a.long_about' h)
  | ConfigOp.required_unless i, a => some (a.required_unless i)
  | ConfigOp.required_unless_all ns, a => some (a.required_unless_all ns)
  | ConfigOp.required_unless_one ns, a => some (a.required_unless_one ns)
  | ConfigOp.conflicts_with i, a => some (a.conflicts_with i)
  | ConfigOp.conflicts_with_all ns, a => some (a.conflicts_with_all ns)
  | ConfigOp.exclusive e, a => some (a.exclusive' e)
  | ConfigOp.overrides_with i, a => some (a.overrides_with i)
  | ConfigOp.overrides_with_all is_, a => some (a.overrides_with_all is_)
  | ConfigOp.requires i, a => some (a.requires' i)
  | ConfigOp.requires_if v i, a => some (a.requires_if v i)
  | ConfigOp.requires_ifs ifs, a => some (a.requires_ifs ifs)
  | ConfigOp.required_if i v, a => some (a.required_if i v)
  | ConfigOp.required_ifs ifs, a => some (a.required_ifs ifs)
  | ConfigOp.requires_all is_, a => some (a.requires_all is_)
  | ConfigOp.index n, a => some (a.index' n)
  | ConfigOp.value_terminator t, a => some (a.value_terminator t)
  | ConfigOp.possible_values ns, a => some (a.possible_values ns)
  | ConfigOp.possible_value n, a => some (a.possible_value n)
  | ConfigOp.group i, a => some (a.group i)
  | ConfigOp.groups is_, a => some (a.groups' is_)
  | ConfigOp.number_of_values n, a => some (a.number_of_values n)
  | ConfigOp.validator f, a => some (a.validator' f)
  | ConfigOp.validator_os f, a => some (a.validator_os' f)
  | ConfigOp.max_values n, a => some (a.max_values n)
  | ConfigOp.min_values n, a => some (a.min_values n)
  | ConfigOp.value_delimiter d, a => a.value_delimiter d
  | ConfigOp.value_names ns, a => some (a.value_names ns)
  | ConfigOp.value_name n, a => some (a.value_name n)
  | ConfigOp.default_values_os vs, a => some (a.default_values_os vs)
  | ConfigOp.default_missing_values_os vs, a => some (a.default_missing_values_os vs)
  | ConfigOp.default_value_if_os i v d, a => some (a.default_value_if_os i v d)
  | ConfigOp.env_os n ev, a => some (a.env_os n ev)
  | ConfigOp.display_order n, a => some (a.display_order n)
  | ConfigOp.last b, a => some (a.last b)
  | ConfigOp.required b, a => some (a.required b)
  | ConfigOp.takes_value b, a => some (a.takes_value b)
  | ConfigOp.allow_hyphen_values b, a => some (a.allow_hyphen_values b)
  | ConfigOp.require_equals b, a => some (a.require_equals b)
  | ConfigOp.global b, a => some (a.global' b)
  | ConfigOp.require_delimiter b, a => some (a.require_delimiter b)
  | ConfigOp.hide_possible_values b, a => some (a.hide_possible_values b)
  | ConfigOp.hide_default_value b, a => some (a.hide_default_value b)
  | ConfigOp.hidden b, a => some (a.hidden b)
  | ConfigOp.case_insensitive b, a => some (a.case_insensitive b)
  | ConfigOp.use_delimiter b, a => some (a.use_delimiter b)
  | ConfigOp.hide_env_values b, a => some (a.hide_env_values b)
  | ConfigOp.next_line_help b, a => some (a.next_line_help b)
  | ConfigOp.multiple b, a => some (a.multiple b)
  | ConfigOp.multiple_values b, a => some (a.multiple_values b)
  | ConfigOp.multiple_occurrences b, a => some (a.multiple_occurrences b)
  | ConfigOp.raw b, a => some (a.raw b)
  | ConfigOp.hidden_short_help b, a => some (a.hidden_short_help b)
  | ConfigOp.hidden_long_help b, a => some (a.hidden_long_help b)
  | ConfigOp.setting s, a => some (a.setting s)
  | ConfigOp.settings ss, a => some (a.settings' ss)
  | ConfigOp.unset_setting s, a => some (a.unset_setting s)
  | ConfigOp.help_heading s, a => some (a.help_heading' s)

/-- An operation is in the scope of the monotonicity claim unless it is the
explicit `unset_setting` call or a boolean setter invoked with `false`. -/
def ConfigOp.isPositive : ConfigOp → Bool
  | ConfigOp.unset_setting _ => false
  | ConfigOp.exclusive b => b
  | ConfigOp.last b => b
  | ConfigOp.required b => b
  | ConfigOp.takes_value b => b
  | ConfigOp.allow_hyphen_values b => b
  | ConfigOp.require_equals b => b
  | ConfigOp.global b => b
  | ConfigOp.require_delimiter b => b
  | ConfigOp.hide_possible_values b => b
  | ConfigOp.hide_default_value b => b
  | ConfigOp.hidden b => b
  | ConfigOp.case_insensitive b => b
  | ConfigOp.use_delimiter b => b
  | ConfigOp.hide_env_values b => b
  | ConfigOp.next_line_help b => b
  | ConfigOp.multiple b => b
  | ConfigOp.multiple_values b => b
  | ConfigOp.multiple_occurrences b => b
  | ConfigOp.raw b => b
  | ConfigOp.hidden_short_help b => b
  | ConfigOp.hidden_long_help b => b
  | _ => true

theorem Arg.short_aliases'_frame (a : Arg) (cs : List Char) (b : Arg)
    (h : a.short_aliases' cs = some b) : b.id = a.id ∧ b.settings = a.settings := by
  induction cs generalizing a with
  | nil =>
    simp only [Arg.short_aliases', Option.some.injEq] at h
    subst h
    exact ⟨rfl, rfl⟩
  | cons c rest ih =>
    unfold Arg.short_aliases' at h
    split at h
    · exact absurd h (by simp)
    · exact ih { a with short_aliases := a.short_aliases ++ [(c, false)] } h

theorem Arg.visible_short_aliases_frame (a : Arg) (cs : List Char) (b : Arg)
    (h : a.visible_short_aliases cs = some b) : b.id = a.id ∧ b.settings = a.settings := by
  induction cs generalizing a with
  | nil =>
    simp only [Arg.visible_short_aliases, Option.some.injEq] at h
    subst h
    exact ⟨rfl, rfl⟩
  | cons c rest ih =>
    unfold Arg.visible_short_aliases at h
    split at h
    · exact absurd h (by simp)
    · exact ih { a with short_aliases := a.short_aliases ++ [(c, true)] } h

theorem Arg.settings'_id (a : Arg) (ss : List ArgSetting) : (a.settings' ss).id = a.id := by
  induction ss generalizing a with
  | nil => rfl
  | cons s rest ih =>
    show (Arg.settings' _ rest).id = a.id
    rw [ih]

theorem Arg.settings'_is_set_mono (a : Arg) (ss : List ArgSetting) (s : ArgSetting)
    (h : a.settings.is_set s = true) : (a.settings' ss).settings.is_set s = true := by
  induction ss generalizing a with
  | nil => exact h
  | cons t rest ih =>
    show (Arg.settings' _ rest).settings.is_set s = true
    exact ih { a with settings := a.settings.set t } (ArgFlags.is_set_mono_set _ _ _ h)

/-- C9: the identity is derived deterministically from the declared name at
construction, and no configuration operation in the catalogue ever changes the
identity field of the specification it returns. -/
theorem C9_identity_stable (n : String) (op : ConfigOp) (a b : Arg)
    (h : applyOp op a = some b) :
    (Arg.new n).id = Id.ofName n ∧ b.id = a.id := by
  refine ⟨rfl, ?_⟩
  cases op
  case short_aliases cs =>
    exact (Arg.short_aliases'_frame a cs b h).1
  case visible_short_aliases cs =>
    exact (Arg.visible_short_aliases_frame a cs b h).1
  case settings ss =>
    simp only [applyOp, Option.some.injEq] at h
    subst h
    exact Arg.settings'_id a ss
  case short c =>
    simp only [applyOp] at h
    unfold Arg.short' at h
    split at h
    · exact absurd h (by simp)
    · simp only [Option.some.injEq] at h; subst h; rfl
  case short_alias c =>
    simp only [applyOp] at h
    unfold Arg.short_alias at h
    split at h
    · exact absurd h (by simp)
    · simp only [Option.some.injEq] at h; subst h; rfl
  case visible_short_alias c =>
    simp only [applyOp] at h
    unfold Arg.visible_short_alias at h
    split at h
    · exact absurd h (by simp)
    · simp only [Option.some.injEq] at h; subst h; rfl
  case value_delimiter d =>
    simp only [applyOp] at h
    unfold Arg.value_delimiter at h
    split at h
    · exact absurd h (by simp)
    · simp only [Option.some.injEq] at h; subst h; rfl
  all_goals
    simp only [applyOp, Option.some.injEq] at h
    subst h
    first
      | rfl
      | (simp only [Arg.value_names, Arg.env_os, Arg.use_delimiter, Arg.last, Arg.required,
            Arg.takes_value, Arg.allow_hyphen_values, Arg.require_equals, Arg.require_delimiter,
            Arg.hide_possible_values, Arg.hide_default_value, Arg.hidden, Arg.case_insensitive,
            Arg.hide_env_values, Arg.next_line_help, Arg.multiple, Arg.multiple_values,
            Arg.multiple_occurrences, Arg.raw, Arg.hidden_short_help, Arg.hidden_long_help,
            Arg.setting, Arg.set_mut, Arg.unset_mut, Arg.unset_setting]
         (repeat' split) <;> rfl)

/-- Witness for C9 at a concrete operation and argument. -/
theorem C9_witness :
    (Arg.new "x").id = Id.ofName "x"
    ∧ (Arg.about' (Arg.new "x") "h").id = (Arg.new "x").id :=
  C9_identity_stable "x" (ConfigOp.about "h") (Arg.new "x") (Arg.about' (Arg.new "x") "h") rfl

set_option maxHeartbeats 2000000 in
/-- C8 (amended): every configuration operation other than an explicit unset
call (or a boolean setter invoked with `false`) preserves every settings flag
already present, with the sole exceptions of the delimiter-not-set marker
(cleared by the delimiter-related setters) and allow-empty-values (cleared by
`require_equals(true)`). -/
theorem C8_settings_monotone_except_markers (op : ConfigOp) (a b : Arg) (s : ArgSetting)
    (hpos : op.isPositive = true)
    (h : applyOp op a = some b)
    (h1 : s ≠ ArgSetting.ValueDelimiterNotSet)
    (h2 : s ≠ ArgSetting.AllowEmptyValues)
    (hset : a.settings.is_set s = true) :
    b.settings.is_set s = true := by
  cases op
  case short_aliases cs =>
    rw [(Arg.short_aliases'_frame a cs b h).2]; exact hset
  case visible_short_aliases cs =>
    rw [(Arg.visible_short_aliases_frame a cs b h).2]; exact hset
  case settings ss =>
    simp only [applyOp, Option.some.injEq] at h
    subst h
    exact Arg.settings'_is_set_mono a ss s hset
  case short c =>
    simp only [applyOp] at h
    unfold Arg.short' at h
    split at h
    · exact absurd h (by simp)
    · simp only [Option.some.injEq] at h; subst h; exact hset
  case short_alias c =>
    simp only [applyOp] at h
    unfold Arg.short_alias at h
    split at h
    · exact absurd h (by simp)
    · simp only [Option.some.injEq] at h; subst h; exact hset
  case visible_short_alias c =>
    simp only [applyOp] at h
    unfold Arg.visible_short_alias at h
    split at h
    · exact absurd h (by simp)
    · simp only [Option.some.injEq] at h; subst h; exact hset
  case value_delimiter d =>
    simp only [applyOp] at h
    unfold Arg.value_delimiter at h
    split at h
    · exact absurd h (by simp)
    · simp only [Option.some.injEq] at h
      subst h
      simp only [Arg.set_mut, Arg.unset_mut]
      simp [ArgFlags.is_set_set, ArgFlags.is_set_unset, h1, hset]
  all_goals
    simp only [ConfigOp.isPositive] at hpos
    try subst hpos
    simp only [applyOp, Option.some.injEq] at h
    subst h
    first
      | exact hset
      | (simp only [Arg.value_names, Arg.env_os, Arg.use_delimiter, Arg.last, Arg.required,
            Arg.takes_value, Arg.allow_hyphen_values, Arg.require_equals, Arg.require_delimiter,
            Arg.hide_possible_values, Arg.hide_default_value, Arg.hidden, Arg.case_insensitive,
            Arg.hide_env_values, Arg.next_line_help, Arg.multiple, Arg.multiple_values,
            Arg.multiple_occurrences, Arg.raw, Arg.hidden_short_help, Arg.hidden_long_help,
            Arg.number_of_values, Arg.min_values, Arg.max_values, Arg.value_name,
            Arg.value_terminator, Arg.possible_values, Arg.possible_value,
            Arg.default_values_os, Arg.default_missing_values_os, Arg.default_value_if_os,
            Arg.required_unless_all, Arg.setting, Arg.set_mut, Arg.unset_mut,
            Arg.unset_setting, Arg.is_set]
         (repeat' split) <;>
          simp_all [ArgFlags.is_set_set, ArgFlags.is_set_unset])

/-- Witness for the amended C8 at a concrete positive operation and a state
carrying a flag. -/
theorem C8_witness :
    (Arg.about' ((Arg.new "x").setting ArgSetting.Hidden) "h").settings.is_set
      ArgSetting.Hidden = true :=
  C8_settings_monotone_except_markers (ConfigOp.about "h")
    ((Arg.new "x").setting ArgSetting.Hidden)
    (Arg.about' ((Arg.new "x").setting ArgSetting.Hidden) "h") ArgSetting.Hidden
    rfl rfl (by decide) (by decide) (by decide)

end Clap
